import Mathlib

set_option autoImplicit false

namespace IntuitionQuery

/-!
Shallow embedding of `src/intuition-trust/scripts/intuition_query.py`.

JSON numeric fields (share totals, counts) are modelled as rationals and
integers; `Option` models a JSON value that is missing or `null`.  The Python
dict `{"data": ...}` returned by a successful HTTP call is modelled by
`QueryResult.ok (data : Option α)` where `data = none` means the `"data"` key
is absent from the body, `data = some none` (for `α = Option β`) means the key
is present with a null or missing payload, and `data = some (some x)` means a
real payload `x` was returned.
-/

/-- Generic JSON value, used where the Python code passes response data
through without inspecting it (search and address lookup bodies), and as the
target of the JSON output mode of `format_output`. -/
inductive Json where
  | null
  | bool (b : Bool)
  | num (q : ℚ)
  | str (s : String)
  | arr (elems : List Json)
  | obj (fields : List (String × Json))

/-- Aggregate record `{"count": n}` inside the `*_triples_aggregate` answer of
the GetAtom query. -/
structure AggD where
  count : Option Int := none
deriving DecidableEq

/-- Wrapper `{"aggregate": {...}}` of the GetAtom aggregates. -/
structure AggWrapD where
  aggregate : Option AggD := none
deriving DecidableEq

/-- Vault record of the GraphQL responses: `total_shares` and
`position_count`.  The API serves integer base-unit share totals, so both
numerics are modelled as `Int` (the Python `float(...)` conversion of an
integer is the identity up to float precision, which is out of scope). -/
structure VaultD where
  total_shares : Option Int := none
  position_count : Option Int := none
deriving DecidableEq

/-- Reference to an atom inside a triple (only `label` is read by the code;
the queried `term_id` is never inspected and is omitted from the model). -/
structure AtomRefD where
  label : Option String := none
deriving DecidableEq

/-- Atom record of the GetAtom response, restricted to the fields the Python
code reads (`label`, `type`, `created_at`, `vault`, the two triple
aggregates); queried but never-read fields (`image`, `block_number`,
`creator`, `current_share_price`) are omitted from the model. -/
structure AtomD where
  label : Option String := none
  type : Option String := none
  created_at : Option String := none
  vault : Option VaultD := none
  as_subject_triples_aggregate : Option AggWrapD := none
  as_object_triples_aggregate : Option AggWrapD := none
deriving DecidableEq

/-- Triple record of the GetTriplesAbout response (fields read by
`calculate_trust_score`). -/
structure TripleD where
  predicate : Option AtomRefD := none
  object : Option AtomRefD := none
  vault : Option VaultD := none
  counter_vault : Option VaultD := none
deriving DecidableEq

/-- Account record of the GetPositions response. -/
structure AccountD where
  id : Option String := none
  label : Option String := none
deriving DecidableEq

/-- Position record of the GetPositions response. -/
structure PositionD where
  account : Option AccountD := none
  shares : Option Int := none
  created_at : Option String := none
deriving DecidableEq

/-- One outbound GraphQL request: the query template together with its
variables, as built by the five query functions of the script.  The search
and address requests carry the wildcarded pattern (Python builds the variable
as a percent-wrapped term). -/
inductive GqlRequest where
  | searchAtoms (searchTerm : String) (limit : Int) (testnet : Bool)
  | getAtom (atomId : Int) (testnet : Bool)
  | getAtomByAddress (address : String) (testnet : Bool)
  | getTriplesAbout (subjectId : Int) (limit : Int) (testnet : Bool)
  | getPositions (atomId : Int) (limit : Int) (testnet : Bool)
deriving DecidableEq

/-- Outcome of one HTTP exchange, as seen by the `try` block of
`execute_query`: a parsed 2xx body (whose `"data"` key may be absent), an
`HTTPError` with status code and reason, a `URLError` with a reason, or any
other exception with its string rendering. -/
inductive TransportOutcome (α : Type) where
  | success (data : Option α)
  | httpError (code : Int) (reason : String)
  | urlError (reason : String)
  | exn (msg : String)

/-- Return value of `execute_query` (source lines 28-55): either the parsed
response body (carrying an optional `"data"` payload) or the
`{"error": msg}` dict built in the three `except` arms. -/
inductive QueryResult (α : Type) where
  | ok (data : Option α)
  | error (msg : String)

/-- Embedding of `execute_query` (source lines 47-55): the single `urlopen`
call is recorded as the one-element request trace, and each `except` arm maps
the failure to its message with a category prefix. -/
def execute_query {α : Type} (req : GqlRequest) (outcome : TransportOutcome α) :
    List GqlRequest × QueryResult α :=
  ([req],
    match outcome with
    | .success d => .ok d
    | .httpError code reason => .error ("HTTP Error " ++ toString code ++ ": " ++ reason)
    | .urlError reason => .error ("URL Error: " ++ reason)
    | .exn msg => .error ("Request failed: " ++ msg))

/-- Abstract network: what the API answers to each of the five query
templates.  The search and address bodies are never inspected by the client
and are modelled as opaque `Json` (the value of the `"data"` key). -/
structure Transport where
  atomResp : Int → Bool → TransportOutcome (Option AtomD)
  triplesResp : Int → Int → Bool → TransportOutcome (Option (List TripleD))
  positionsResp : Int → Int → Bool → TransportOutcome (Option (List PositionD))
  searchResp : String → Int → Bool → TransportOutcome Json
  addressResp : String → Bool → TransportOutcome Json

/-- Embedding of `search_atoms` (source lines 58-84): wildcards the term and
issues one SearchAtoms request. -/
def search_atoms (search_term : String) (limit : Int) (use_testnet : Bool)
    (net : Transport) : List GqlRequest × QueryResult Json :=
  execute_query (.searchAtoms ("%" ++ search_term ++ "%") limit use_testnet)
    (net.searchResp ("%" ++ search_term ++ "%") limit use_testnet)

/-- Embedding of `get_atom_by_id` (source lines 87-121): one GetAtom request. -/
def get_atom_by_id (atom_id : Int) (use_testnet : Bool) (net : Transport) :
    List GqlRequest × QueryResult (Option AtomD) :=
  execute_query (.getAtom atom_id use_testnet) (net.atomResp atom_id use_testnet)

/-- Embedding of `get_atom_by_address` (source lines 124-152): wildcards the
address and issues one GetAtomByAddress request (its limit is hardcoded to 5
inside the query template, not taken from the arguments). -/
def get_atom_by_address (address : String) (use_testnet : Bool) (net : Transport) :
    List GqlRequest × QueryResult Json :=
  execute_query (.getAtomByAddress ("%" ++ address ++ "%") use_testnet)
    (net.addressResp ("%" ++ address ++ "%") use_testnet)

/-- Embedding of `get_triples_about` (source lines 155-190): one
GetTriplesAbout request. -/
def get_triples_about (subject_id : Int) (limit : Int) (use_testnet : Bool)
    (net : Transport) : List GqlRequest × QueryResult (Option (List TripleD)) :=
  execute_query (.getTriplesAbout subject_id limit use_testnet)
    (net.triplesResp subject_id limit use_testnet)

/-- Embedding of `get_positions_on_atom` (source lines 193-212): one
GetPositions request. -/
def get_positions_on_atom (atom_id : Int) (limit : Int) (use_testnet : Bool)
    (net : Transport) : List GqlRequest × QueryResult (Option (List PositionD)) :=
  execute_query (.getPositions atom_id limit use_testnet)
    (net.positionsResp atom_id limit use_testnet)

/-! Trust-score report model (the dict built at source lines 221-235). -/

/-- Entity summary sub-record of the report (source lines 239-243). -/
structure AtomSummary where
  label : Option String := none
  type : Option String := none
  created_at : Option String := none
deriving DecidableEq

/-- Numeric metrics of the report (source lines 224-232).  All fields start
at zero; `trust_ratio` starts as null. -/
structure Metrics where
  total_stake : Int := 0
  position_count : Int := 0
  claims_as_subject : Int := 0
  claims_as_object : Int := 0
  positive_signal : Int := 0
  negative_signal : Int := 0
  trust_ratio : Option ℚ := none
deriving DecidableEq

/-- One entry of the `top_claims` list (source lines 265-270). -/
structure TopClaim where
  predicate : Option String := none
  object : Option String := none
  positive_stake : Int := 0
  negative_stake : Int := 0
deriving DecidableEq

/-- One entry of the `top_attestors` list (source lines 275-279).  Every
field key is always present in the dict the code builds; an `Option` value of
`none` models the Python value `None`. -/
structure Attestor where
  address : Option String := none
  label : Option String := none
  stake : Option Int := none
deriving DecidableEq

/-- The trust-score report (source lines 221-235). -/
structure TrustReport where
  atom_id : Int
  atom : Option AtomSummary := none
  metrics : Metrics := {}
  top_claims : List TopClaim := []
  top_attestors : List Attestor := []
deriving DecidableEq

/-- The report as first initialized by `calculate_trust_score` (source lines
221-235), before any response data is merged: null atom summary, all-zero
metrics, null trust ratio, empty lists. -/
def initial_report (atom_id : Int) : TrustReport :=
  { atom_id := atom_id
    atom := none
    metrics := { total_stake := 0, position_count := 0, claims_as_subject := 0,
                 claims_as_object := 0, positive_signal := 0, negative_signal := 0,
                 trust_ratio := none }
    top_claims := []
    top_attestors := [] }

/-- Banker's rounding to an integer, the rounding mode of Python `round`:
round to the nearest integer, ties to the even neighbour. -/
def roundHalfEven (q : ℚ) : ℤ :=
  let f : ℤ := ⌊q⌋
  let frac : ℚ := q - f
  if frac < 1/2 then f
  else if 1/2 < frac then f + 1
  else if f % 2 = 0 then f else f + 1

/-- Python `round(x, 4)`: round to four decimal places. -/
def round4 (q : ℚ) : ℚ := (roundHalfEven (q * 10000) : ℚ) / 10000

/-- Evaluation of `(triple.get("vault") or {}).get("total_shares")` followed
by `float(... or 0)` (source lines 256-260): a missing or null vault, and a
missing, null or zero share total, all give 0. -/
def vaultShares (ov : Option VaultD) : Int :=
  ((ov.getD {}).total_shares).getD 0

/-- Positive stake contributed by one triple: its vault share total
(source line 259). -/
def triplePositive (t : TripleD) : Int := vaultShares t.vault

/-- Negative stake contributed by one triple: its counter-vault share total
(source line 260). -/
def tripleNegative (t : TripleD) : Int := vaultShares t.counter_vault

/-- Evaluation of `vault.get("position_count", 0)` after
`atom.get("vault") or {}` (source lines 245-247). -/
def vaultPositionCount (ov : Option VaultD) : Int :=
  ((ov.getD {}).position_count).getD 0

/-- Evaluation of `atom.get(k, {}).get("aggregate", {}).get("count", 0)`
for the two triple aggregates (source lines 249-252). -/
def aggCount (o : Option AggWrapD) : Int :=
  ((((o.getD {}).aggregate).getD {}).count).getD 0

/-- The triples list the aggregation loop runs over: present only when the
response carried a `"data"` key with a truthy `"triples"` value (source line
254); in every other case the loop body never runs, which coincides with
folding over the empty list. -/
def extractTriples (td : QueryResult (Option (List TripleD))) : List TripleD :=
  match td with
  | .ok (some (some l)) => l
  | _ => []

/-- The positions list of the attestor loop (source line 272), analogous to
`extractTriples`. -/
def extractPositions (pd : QueryResult (Option (List PositionD))) : List PositionD :=
  match pd with
  | .ok (some (some l)) => l
  | _ => []

/-- One `top_claims` entry built from a triple (source lines 265-270):
`triple.get("predicate", {}).get("label")` and the two share totals. -/
def mkTopClaim (t : TripleD) : TopClaim :=
  { predicate := (t.predicate.getD {}).label
    object := (t.object.getD {}).label
    positive_stake := triplePositive t
    negative_stake := tripleNegative t }

/-- One `top_attestors` entry built from a position (source lines 273-279):
`account = position.get("account") or {}`, then its `id`, `label` and the
position `shares` are stored (all possibly null). -/
def mkAttestor (p : PositionD) : Attestor :=
  { address := (p.account.getD {}).id
    label := (p.account.getD {}).label
    stake := p.shares }

/-- The final step of `calculate_trust_score` (source lines 281-285):
`trust_ratio` is written into the report only when the total signal is
strictly positive (`if total_signal > 0`), never dividing by zero. -/
def applyTrustRatio (r : TrustReport) (pos neg : Int) : TrustReport :=
  if 0 < pos + neg then
    { r with metrics := { r.metrics with
        trust_ratio := some (round4 ((pos : ℚ) / ((pos : ℚ) + (neg : ℚ)))) } }
  else r

/-- Embedding of the aggregation body of `calculate_trust_score` (source
lines 221-287) as a pure function of the three sub-query results.  `r1`
merges the entity detail (lines 237-252), `r2` folds the first five triples
into the signal sums and `top_claims` (lines 254-270), `r3` collects the
first five positions as `top_attestors` (lines 272-279), and the final step
computes `trust_ratio` only when the total signal is positive (lines
281-285). -/
def calculate_trust_score (atom_id : Int)
    (atom_data : QueryResult (Option AtomD))
    (triples_data : QueryResult (Option (List TripleD)))
    (positions_data : QueryResult (Option (List PositionD))) : TrustReport :=
  let r0 := initial_report atom_id
  let r1 :=
    match atom_data with
    | .ok (some (some atom)) =>
      { r0 with
        atom := some { label := atom.label, type := atom.type,
                       created_at := atom.created_at }
        metrics := { r0.metrics with
          total_stake := (atom.vault.getD {}).total_shares.getD 0
          position_count := vaultPositionCount atom.vault
          claims_as_subject := aggCount atom.as_subject_triples_aggregate
          claims_as_object := aggCount atom.as_object_triples_aggregate } }
    | _ => r0
  let tl := (extractTriples triples_data).take 5
  let pos := (tl.map triplePositive).sum
  let neg := (tl.map tripleNegative).sum
  let r2 := { r1 with
    metrics := { r1.metrics with positive_signal := pos, negative_signal := neg }
    top_claims := tl.map mkTopClaim }
  let r3 := { r2 with
    top_attestors := ((extractPositions positions_data).take 5).map mkAttestor }
  applyTrustRatio r3 pos neg

/-- Modelled from the spec: the bundled-metrics trust-tier classifier of the
second script variant, which is not under `src/` (only the triples-based
variant is).  Spec 4.2: classify trust into one of four ordered tiers by
thresholds on total assets (a base-unit integer) and position count,
evaluated in this exact order, first match wins:
assets > 10^18 AND positions > 10 gives "High"; assets > 10^17 OR
positions > 5 gives "Medium"; assets > 0 gives "Low"; else "Unverified". -/
def classify_trust_tier (assets : Int) (positions : Int) : String :=
  if assets > 10 ^ 18 ∧ positions > 10 then "High"
  else if assets > 10 ^ 17 ∨ positions > 5 then "Medium"
  else if assets > 0 then "Low"
  else "Unverified"

/-! Result formatting (`format_output`, source lines 290-333) and the
command-line surface (`main`, source lines 336-382). -/

/-- Python string interpolation of a report value that may be `None`
(f-strings render `None` as the text `None`). -/
def pyOptStr : Option String → String
  | none => "None"
  | some s => s

/-- Python `f"{x:.2%}"`: the value as a percentage with two decimal places
(source line 313). -/
def pyPercent (q : ℚ) : String :=
  let n : ℤ := roundHalfEven (q * 10000)
  let sgn := if n < 0 then "-" else ""
  let m := n.natAbs
  let f := m % 100
  sgn ++ toString (m / 100) ++ "." ++ (if f < 10 then "0" else "") ++ toString f ++ "%"

/-- Python rendering of the `stake` value of an attestor entry (the key is
always present; a null value prints as `None`). -/
def stakeStr : Option Int → String
  | none => "None"
  | some n => toString n

/-- Evaluation of `attestor.get("address", "?")[:10] + "..."` (source line
329).  The `"address"` key is always present in the dicts built by
`calculate_trust_score`, so the `"?"` default is never taken; slicing a null
address raises a `TypeError`, modelled as `Except.error`. -/
def addrTrunc : Option String → Except Unit String
  | some s => .ok (s.take 10 ++ "...")
  | none => .error ()

/-- One attestor line of the text report (source lines 328-331):
`label = attestor.get("label") or attestor.get("address", "?")[:10] + "..."`
followed by `f"  - {label}: {stake}"`.  A truthy (non-null, non-empty) label
is used as is; otherwise the truncated address is computed. -/
def attestor_line (a : Attestor) : Except Unit String := do
  let label ←
    match a.label with
    | some s => if s = "" then addrTrunc a.address else .ok s
    | none => addrTrunc a.address
  .ok ("  - " ++ label ++ ": " ++ stakeStr a.stake)

/-- One claim line of the text report (source lines 318-323).  All four keys
are always present in the dicts built by `calculate_trust_score`, so the
`"?"` and `0` defaults are never taken. -/
def claimLine (c : TopClaim) : String :=
  "  - " ++ pyOptStr c.predicate ++ " -> " ++ pyOptStr c.object ++
    " (positive: " ++ toString c.positive_stake ++ ", negative: " ++ toString c.negative_stake ++ ")"

/-- Text-mode rendering of a trust report (source lines 298-333): entity
section when the atom summary is truthy, metrics section (the `"metrics"`
key is always present in a report), trust-ratio line only when computed,
claim and attestor sections only when non-empty, all joined by newlines. -/
def formatReportText (r : TrustReport) : Except Unit String := do
  let atomLines :=
    match r.atom with
    | some a => ["Entity: " ++ pyOptStr a.label, "Type: " ++ pyOptStr a.type, ""]
    | none => []
  let ratioLines :=
    match r.metrics.trust_ratio with
    | some q => ["  Trust Ratio: " ++ pyPercent q]
    | none => []
  let metricLines :=
    ["Metrics:",
     "  Total Stake: " ++ toString r.metrics.total_stake,
     "  Position Count: " ++ toString r.metrics.position_count,
     "  Claims as Subject: " ++ toString r.metrics.claims_as_subject,
     "  Claims as Object: " ++ toString r.metrics.claims_as_object]
    ++ ratioLines ++ [""]
  let claimLines :=
    if r.top_claims = [] then []
    else ("Top Claims:" :: r.top_claims.map claimLine) ++ [""]
  let attLines ←
    if r.top_attestors = [] then .ok []
    else do
      let ls ← r.top_attestors.mapM attestor_line
      .ok ("Top Attestors:" :: ls)
  .ok (String.intercalate "\n" (atomLines ++ metricLines ++ claimLines ++ attLines))

/-- The value `result` holds when `main` reaches the printing step: `None`
when no branch ran, the `{"error": msg}` dict, a raw response body from one
of the five plain operations, or the trust report. -/
inductive MainResult where
  | noResult
  | queryError (msg : String)
  | searchBody (data : Option Json)
  | atomBody (data : Option (Option AtomD))
  | triplesBody (data : Option (Option (List TripleD)))
  | positionsBody (data : Option (Option (List PositionD)))
  | report (r : TrustReport)

/-- Python truthiness of `result` at source line 381: `None` is falsy, an
error dict and a report dict are non-empty hence truthy, and a success body
is modelled as truthy exactly when it carries a `"data"` key. -/
def mainResultTruthy : MainResult → Bool
  | .noResult => false
  | .queryError _ => true
  | .searchBody d => d.isSome
  | .atomBody d => d.isSome
  | .triplesBody d => d.isSome
  | .positionsBody d => d.isSome
  | .report _ => true

def searchResultToMain : QueryResult Json → MainResult
  | .ok d => .searchBody d
  | .error m => .queryError m

def atomResultToMain : QueryResult (Option AtomD) → MainResult
  | .ok d => .atomBody d
  | .error m => .queryError m

def triplesResultToMain : QueryResult (Option (List TripleD)) → MainResult
  | .ok d => .triplesBody d
  | .error m => .queryError m

def positionsResultToMain : QueryResult (Option (List PositionD)) → MainResult
  | .ok d => .positionsBody d
  | .error m => .queryError m

def optStrJson : Option String → Json
  | none => .null
  | some s => .str s

def optRatJson : Option ℚ → Json
  | none => .null
  | some q => .num q

def optIntJson : Option Int → Json
  | none => .null
  | some n => .num n

def vaultJson (v : VaultD) : Json :=
  .obj [("total_shares", optIntJson v.total_shares),
        ("position_count", optIntJson v.position_count)]

def optVaultJson : Option VaultD → Json
  | none => .null
  | some v => vaultJson v

def aggWrapJson : Option AggWrapD → Json
  | none => .null
  | some w => .obj [("aggregate",
      match w.aggregate with
      | none => Json.null
      | some g => Json.obj [("count", optIntJson g.count)])]

def atomJson (a : AtomD) : Json :=
  .obj [("label", optStrJson a.label),
        ("type", optStrJson a.type),
        ("created_at", optStrJson a.created_at),
        ("vault", optVaultJson a.vault),
        ("as_subject_triples_aggregate", aggWrapJson a.as_subject_triples_aggregate),
        ("as_object_triples_aggregate", aggWrapJson a.as_object_triples_aggregate)]

def atomRefJson : Option AtomRefD → Json
  | none => .null
  | some r => .obj [("label", optStrJson r.label)]

def tripleJson (t : TripleD) : Json :=
  .obj [("predicate", atomRefJson t.predicate),
        ("object", atomRefJson t.object),
        ("vault", optVaultJson t.vault),
        ("counter_vault", optVaultJson t.counter_vault)]

def positionJson (p : PositionD) : Json :=
  .obj [("account",
          match p.account with
          | none => Json.null
          | some a => Json.obj [("id", optStrJson a.id), ("label", optStrJson a.label)]),
        ("shares", optIntJson p.shares),
        ("created_at", optStrJson p.created_at)]

def metricsJson (m : Metrics) : Json :=
  .obj [("total_stake", .num m.total_stake),
        ("position_count", .num m.position_count),
        ("claims_as_subject", .num m.claims_as_subject),
        ("claims_as_object", .num m.claims_as_object),
        ("positive_signal", .num m.positive_signal),
        ("negative_signal", .num m.negative_signal),
        ("trust_ratio", optRatJson m.trust_ratio)]

def topClaimJson (c : TopClaim) : Json :=
  .obj [("predicate", optStrJson c.predicate),
        ("object", optStrJson c.object),
        ("positive_stake", .num c.positive_stake),
        ("negative_stake", .num c.negative_stake)]

def attestorJson (a : Attestor) : Json :=
  .obj [("address", optStrJson a.address),
        ("label", optStrJson a.label),
        ("stake", optIntJson a.stake)]

def reportJson (r : TrustReport) : Json :=
  .obj [("atom_id", .num r.atom_id),
        ("atom",
          match r.atom with
          | none => Json.null
          | some a => Json.obj [("label", optStrJson a.label),
                                ("type", optStrJson a.type),
                                ("created_at", optStrJson a.created_at)]),
        ("metrics", metricsJson r.metrics),
        ("top_claims", .arr (r.top_claims.map topClaimJson)),
        ("top_attestors", .arr (r.top_attestors.map attestorJson))]

/-- JSON value serialized by `json.dumps(data, indent=2, default=str)`
(source line 293), one case per possible `result` value; a body without a
`"data"` key serializes as the empty object. -/
def mainResultToJson : MainResult → Json
  | .noResult => .null
  | .queryError msg => .obj [("error", .str msg)]
  | .searchBody none => .obj []
  | .searchBody (some j) => .obj [("data", j)]
  | .atomBody none => .obj []
  | .atomBody (some d) => .obj [("data", .obj [("atom",
      match d with | none => Json.null | some a => atomJson a)])]
  | .triplesBody none => .obj []
  | .triplesBody (some d) => .obj [("data", .obj [("triples",
      match d with | none => Json.null | some l => Json.arr (l.map tripleJson))])]
  | .positionsBody none => .obj []
  | .positionsBody (some d) => .obj [("data", .obj [("positions",
      match d with | none => Json.null | some l => Json.arr (l.map positionJson))])]
  | .report r => reportJson r

inductive OutputFormat where
  | json
  | text
deriving DecidableEq

/-- What the program prints: the pretty-printed JSON (kept at the level of
the JSON value, whose textual layout no claim inspects) or a text report. -/
inductive Output where
  | jsonOut (j : Json)
  | textOut (s : String)

/-- Embedding of `format_output` (source lines 290-333).  JSON mode
serializes any result, error included, and never fails.  Text mode renders an
error dict as the single `Error:` line, renders a report section by section,
and renders a raw response body (which has none of the inspected keys) as the
empty string; slicing a null address raises, modelled as `Except.error`. -/
def format_output (data : MainResult) (output_format : OutputFormat) :
    Except Unit Output :=
  match output_format with
  | .json => .ok (.jsonOut (mainResultToJson data))
  | .text =>
    match data with
    | .queryError msg => .ok (.textOut ("Error: " ++ msg))
    | .report r => do
        let s ← formatReportText r
        .ok (.textOut s)
    | _ => .ok (.textOut "")

/-- The fetching wrapper of `calculate_trust_score` (source lines 215-219):
the three sub-queries are issued sequentially in source order (entity detail,
then triples, then positions, the latter two with limit 50), and the report
is computed from their results. -/
def calculate_trust_score_net (atom_id : Int) (use_testnet : Bool)
    (net : Transport) : List GqlRequest × TrustReport :=
  let (t1, atom_data) := get_atom_by_id atom_id use_testnet net
  let (t2, triples_data) := get_triples_about atom_id 50 use_testnet net
  let (t3, positions_data) := get_positions_on_atom atom_id 50 use_testnet net
  (t1 ++ t2 ++ t3, calculate_trust_score atom_id atom_data triples_data positions_data)

/-- Parsed command-line arguments (source lines 350-358).  Each operation
flag is `none` when absent; `limit` defaults to 10 and `format` to json,
mirroring the argparse defaults. -/
structure Args where
  search : Option String := none
  atom_id : Option Int := none
  address : Option String := none
  triples_about : Option Int := none
  positions : Option Int := none
  trust_score : Option Int := none
  limit : Int := 10
  testnet : Bool := false
  format : OutputFormat := .json

/-- Python truthiness of an optional string argument: absent or empty is
falsy. -/
def truthyStr : Option String → Bool
  | none => false
  | some s => !(s == "")

/-- Python truthiness of an optional integer argument: absent or zero is
falsy. -/
def truthyInt : Option Int → Bool
  | none => false
  | some n => !(n == 0)

/-- The guard `any([args.search, args.atom_id, ...])` of source line 362:
some operation flag was supplied with a truthy value. -/
def anyOpTruthy (a : Args) : Bool :=
  truthyStr a.search || truthyInt a.atom_id || truthyStr a.address ||
  truthyInt a.triples_about || truthyInt a.positions || truthyInt a.trust_score

/-- Observable outcome of one completed run of `main`: what was printed (if
anything), the process exit status, and the outbound request trace. -/
structure MainRun where
  printed : Option Output
  exitCode : Nat
  trace : List GqlRequest

/-- The elif dispatch chain of `main` (source lines 366-379): the first
operation flag with a truthy value runs, in source order; with no truthy flag
`result` stays `None`.  Returns the request trace together with the result. -/
def dispatch (args : Args) (net : Transport) : List GqlRequest × MainResult :=
  if truthyStr args.search then
    let (t, r) := search_atoms (args.search.getD "") args.limit args.testnet net
    (t, searchResultToMain r)
  else if truthyInt args.atom_id then
    let (t, r) := get_atom_by_id (args.atom_id.getD 0) args.testnet net
    (t, atomResultToMain r)
  else if truthyStr args.address then
    let (t, r) := get_atom_by_address (args.address.getD "") args.testnet net
    (t, searchResultToMain r)
  else if truthyInt args.triples_about then
    let (t, r) := get_triples_about (args.triples_about.getD 0) args.limit args.testnet net
    (t, triplesResultToMain r)
  else if truthyInt args.positions then
    let (t, r) := get_positions_on_atom (args.positions.getD 0) args.limit args.testnet net
    (t, positionsResultToMain r)
  else if truthyInt args.trust_score then
    let (t, r) := calculate_trust_score_net (args.trust_score.getD 0) args.testnet net
    (t, .report r)
  else ([], .noResult)

/-- Embedding of `main` (source lines 336-382): print help and exit 1 when
no truthy operation flag is present; otherwise dispatch to the first truthy
operation in source order, print the formatted result when it is truthy, and
finish with exit status 0.  A `TypeError` escaping `format_output` is the
`Except.error` case. -/
def main (args : Args) (net : Transport) : Except Unit MainRun :=
  if anyOpTruthy args then
    let tr_res : List GqlRequest × MainResult := dispatch args net
    if mainResultTruthy tr_res.2 then
      match format_output tr_res.2 args.format with
      | .ok out => .ok { printed := some out, exitCode := 0, trace := tr_res.1 }
      | .error e => .error e
    else .ok { printed := none, exitCode := 0, trace := tr_res.1 }
  else
    .ok { printed := none, exitCode := 1, trace := [] }

/-! Projection lemmas for `calculate_trust_score`, shared by the claim
theorems below. -/

theorem applyTrustRatio_atom (r : TrustReport) (p n : Int) :
    (applyTrustRatio r p n).atom = r.atom := by
  unfold applyTrustRatio; split <;> rfl

theorem applyTrustRatio_top_claims (r : TrustReport) (p n : Int) :
    (applyTrustRatio r p n).top_claims = r.top_claims := by
  unfold applyTrustRatio; split <;> rfl

theorem applyTrustRatio_top_attestors (r : TrustReport) (p n : Int) :
    (applyTrustRatio r p n).top_attestors = r.top_attestors := by
  unfold applyTrustRatio; split <;> rfl

theorem applyTrustRatio_total_stake (r : TrustReport) (p n : Int) :
    (applyTrustRatio r p n).metrics.total_stake = r.metrics.total_stake := by
  unfold applyTrustRatio; split <;> rfl

theorem applyTrustRatio_position_count (r : TrustReport) (p n : Int) :
    (applyTrustRatio r p n).metrics.position_count = r.metrics.position_count := by
  unfold applyTrustRatio; split <;> rfl

theorem applyTrustRatio_claims_as_subject (r : TrustReport) (p n : Int) :
    (applyTrustRatio r p n).metrics.claims_as_subject = r.metrics.claims_as_subject := by
  unfold applyTrustRatio; split <;> rfl

theorem applyTrustRatio_claims_as_object (r : TrustReport) (p n : Int) :
    (applyTrustRatio r p n).metrics.claims_as_object = r.metrics.claims_as_object := by
  unfold applyTrustRatio; split <;> rfl

theorem applyTrustRatio_positive_signal (r : TrustReport) (p n : Int) :
    (applyTrustRatio r p n).metrics.positive_signal = r.metrics.positive_signal := by
  unfold applyTrustRatio; split <;> rfl

theorem applyTrustRatio_negative_signal (r : TrustReport) (p n : Int) :
    (applyTrustRatio r p n).metrics.negative_signal = r.metrics.negative_signal := by
  unfold applyTrustRatio; split <;> rfl

theorem applyTrustRatio_trust_ratio (r : TrustReport) (p n : Int) :
    (applyTrustRatio r p n).metrics.trust_ratio
      = if 0 < p + n then some (round4 ((p : ℚ) / ((p : ℚ) + (n : ℚ))))
        else r.metrics.trust_ratio := by
  unfold applyTrustRatio; split <;> rfl

/-- The positive signal metric is the sum of the vault share totals of the
first five returned triples. -/
theorem calc_positive_signal (i : Int) (ad : QueryResult (Option AtomD))
    (td : QueryResult (Option (List TripleD))) (pd : QueryResult (Option (List PositionD))) :
    (calculate_trust_score i ad td pd).metrics.positive_signal
      = (((extractTriples td).take 5).map triplePositive).sum := by
  simp only [calculate_trust_score, applyTrustRatio_positive_signal]

/-- The negative signal metric is the sum of the counter-vault share totals
of the first five returned triples. -/
theorem calc_negative_signal (i : Int) (ad : QueryResult (Option AtomD))
    (td : QueryResult (Option (List TripleD))) (pd : QueryResult (Option (List PositionD))) :
    (calculate_trust_score i ad td pd).metrics.negative_signal
      = (((extractTriples td).take 5).map tripleNegative).sum := by
  simp only [calculate_trust_score, applyTrustRatio_negative_signal]

/-- The top-claims list is the image of the first five returned triples, in
response order. -/
theorem calc_top_claims (i : Int) (ad : QueryResult (Option AtomD))
    (td : QueryResult (Option (List TripleD))) (pd : QueryResult (Option (List PositionD))) :
    (calculate_trust_score i ad td pd).top_claims
      = ((extractTriples td).take 5).map mkTopClaim := by
  simp only [calculate_trust_score, applyTrustRatio_top_claims]

/-- The top-attestors list is the image of the first five returned positions,
in response order. -/
theorem calc_top_attestors (i : Int) (ad : QueryResult (Option AtomD))
    (td : QueryResult (Option (List TripleD))) (pd : QueryResult (Option (List PositionD))) :
    (calculate_trust_score i ad td pd).top_attestors
      = ((extractPositions pd).take 5).map mkAttestor := by
  simp only [calculate_trust_score, applyTrustRatio_top_attestors]

/-- The trust ratio is the rounded positive share of the total signal when
that total is positive, and stays null otherwise. -/
theorem calc_trust_ratio (i : Int) (ad : QueryResult (Option AtomD))
    (td : QueryResult (Option (List TripleD))) (pd : QueryResult (Option (List PositionD))) :
    (calculate_trust_score i ad td pd).metrics.trust_ratio
      = (let p := (((extractTriples td).take 5).map triplePositive).sum
         let n := (((extractTriples td).take 5).map tripleNegative).sum
         if 0 < p + n then some (round4 ((p : ℚ) / ((p : ℚ) + (n : ℚ)))) else none) := by
  simp only [calculate_trust_score, applyTrustRatio_trust_ratio]
  cases ad with
  | error m => rfl
  | ok d =>
    cases d with
    | none => rfl
    | some d2 =>
      cases d2 with
      | none => rfl
      | some a => rfl

/-! Bounds on banker's rounding, used to place the trust ratio in [0, 1]. -/

theorem roundHalfEven_nonneg (q : ℚ) (hq : 0 ≤ q) : 0 ≤ roundHalfEven q := by
  simp only [roundHalfEven]
  have h0 : (0 : ℤ) ≤ ⌊q⌋ := Int.floor_nonneg.mpr hq
  split_ifs <;> omega

theorem roundHalfEven_le (q : ℚ) (B : ℤ) (h : q ≤ B) : roundHalfEven q ≤ B := by
  simp only [roundHalfEven]
  have hfl : ⌊q⌋ ≤ B := by
    have h2 : ⌊q⌋ ≤ ⌊(B : ℚ)⌋ := Int.floor_le_floor h
    simpa using h2
  have hstep : ¬(q - (⌊q⌋ : ℚ) < 1 / 2) → ⌊q⌋ + 1 ≤ B := by
    intro hge
    have h1 : (1 : ℚ) / 2 ≤ q - (⌊q⌋ : ℚ) := not_lt.mp hge
    have hc : (⌊q⌋ : ℚ) < (B : ℚ) := by linarith
    have hz : ⌊q⌋ < B := by exact_mod_cast hc
    omega
  split_ifs with h1 h2 h3
  · exact hfl
  · exact hstep h1
  · exact hfl
  · exact hstep h1

theorem round4_nonneg (q : ℚ) (h : 0 ≤ q) : 0 ≤ round4 q := by
  unfold round4
  have h1 : (0 : ℤ) ≤ roundHalfEven (q * 10000) :=
    roundHalfEven_nonneg _ (by positivity)
  have h2 : (0 : ℚ) ≤ (roundHalfEven (q * 10000) : ℚ) := by exact_mod_cast h1
  positivity

theorem round4_le_one (q : ℚ) (h : q ≤ 1) : round4 q ≤ 1 := by
  unfold round4
  have h1 : q * 10000 ≤ ((10000 : ℤ) : ℚ) := by push_cast; linarith
  have h2 : roundHalfEven (q * 10000) ≤ 10000 := roundHalfEven_le _ _ h1
  rw [div_le_one (by norm_num)]
  exact_mod_cast h2

/-- Nonnegative per-triple stakes give a nonnegative five-triple sum. -/
theorem extract_sum_nonneg (td : QueryResult (Option (List TripleD)))
    (f : TripleD → Int)
    (hf : ∀ l, td = .ok (some (some l)) → ∀ t ∈ l, 0 ≤ f t) :
    0 ≤ (((extractTriples td).take 5).map f).sum := by
  cases td with
  | error m => simp [extractTriples]
  | ok d =>
    cases d with
    | none => simp [extractTriples]
    | some d2 =>
      cases d2 with
      | none => simp [extractTriples]
      | some l =>
        apply List.sum_nonneg
        intro x hx
        simp only [List.mem_map] at hx
        obtain ⟨t, ht, rfl⟩ := hx
        exact hf l rfl t (List.take_subset _ _ ht)

/-- C1: in every trust-score report, the trust ratio is left null when the
summed positive and negative stake totals of the (up to five) top claims are
both zero; and whenever their sum is positive, the trust ratio equals
positive / (positive + negative) rounded to four decimal places and lies in
[0, 1].  The hypothesis states the API invariant that returned share totals
are nonnegative amounts. -/
theorem c1_trust_ratio_null_or_bounded (i : Int) (ad : QueryResult (Option AtomD))
    (td : QueryResult (Option (List TripleD))) (pd : QueryResult (Option (List PositionD)))
    (hnn : ∀ l, td = .ok (some (some l)) →
      ∀ t ∈ l, 0 ≤ triplePositive t ∧ 0 ≤ tripleNegative t) :
    ((calculate_trust_score i ad td pd).metrics.positive_signal = 0 ∧
       (calculate_trust_score i ad td pd).metrics.negative_signal = 0 →
       (calculate_trust_score i ad td pd).metrics.trust_ratio = none) ∧
    (0 < (calculate_trust_score i ad td pd).metrics.positive_signal +
           (calculate_trust_score i ad td pd).metrics.negative_signal →
       (calculate_trust_score i ad td pd).metrics.trust_ratio
         = some (round4 (((calculate_trust_score i ad td pd).metrics.positive_signal : ℚ) /
             (((calculate_trust_score i ad td pd).metrics.positive_signal : ℚ) +
              ((calculate_trust_score i ad td pd).metrics.negative_signal : ℚ)))) ∧
       ∀ q, (calculate_trust_score i ad td pd).metrics.trust_ratio = some q →
         0 ≤ q ∧ q ≤ 1) := by
  have hps := calc_positive_signal i ad td pd
  have hns := calc_negative_signal i ad td pd
  have htr := calc_trust_ratio i ad td pd
  dsimp only at htr
  have hPnn : 0 ≤ (((extractTriples td).take 5).map triplePositive).sum :=
    extract_sum_nonneg td triplePositive (fun l hl t ht => (hnn l hl t ht).1)
  have hNnn : 0 ≤ (((extractTriples td).take 5).map tripleNegative).sum :=
    extract_sum_nonneg td tripleNegative (fun l hl t ht => (hnn l hl t ht).2)
  rw [hps, hns, htr]
  constructor
  · rintro ⟨h0p, h0n⟩
    rw [h0p, h0n]
    norm_num
  · intro hpos
    rw [if_pos hpos]
    refine ⟨rfl, ?_⟩
    intro q hq
    injection hq with hq
    subst hq
    have hPq : (0 : ℚ) ≤ ((((extractTriples td).take 5).map triplePositive).sum : ℚ) := by
      exact_mod_cast hPnn
    have hNq : (0 : ℚ) ≤ ((((extractTriples td).take 5).map tripleNegative).sum : ℚ) := by
      exact_mod_cast hNnn
    have hTq : (0 : ℚ) < ((((extractTriples td).take 5).map triplePositive).sum : ℚ)
        + ((((extractTriples td).take 5).map tripleNegative).sum : ℚ) := by
      exact_mod_cast hpos
    have hratio0 : (0 : ℚ) ≤ ((((extractTriples td).take 5).map triplePositive).sum : ℚ)
        / (((((extractTriples td).take 5).map triplePositive).sum : ℚ)
           + ((((extractTriples td).take 5).map tripleNegative).sum : ℚ)) :=
      div_nonneg hPq (le_of_lt hTq)
    have hratio1 : ((((extractTriples td).take 5).map triplePositive).sum : ℚ)
        / (((((extractTriples td).take 5).map triplePositive).sum : ℚ)
           + ((((extractTriples td).take 5).map tripleNegative).sum : ℚ)) ≤ 1 := by
      rw [div_le_one hTq]
      linarith
    exact ⟨round4_nonneg _ hratio0, round4_le_one _ hratio1⟩

/-! Shared concrete inputs for witnesses and counterexamples. -/

/-- A transport whose every response is a success with no `"data"` key. -/
def emptyTransport : Transport :=
  { atomResp := fun _ _ => .success none
    triplesResp := fun _ _ _ => .success none
    positionsResp := fun _ _ _ => .success none
    searchResp := fun _ _ _ => .success none
    addressResp := fun _ _ => .success none }

/-- A failed entity-detail sub-query result. -/
def adW : QueryResult (Option AtomD) := .error "HTTP Error 500: Internal Server Error"

/-- A triples response with one triple staked 3 for and 1 against. -/
def tdW : QueryResult (Option (List TripleD)) :=
  .ok (some (some [{ vault := some { total_shares := some 3 },
                     counter_vault := some { total_shares := some 1 } }]))

/-- A positions response with one position of 2 shares by account 0xabc. -/
def pdW : QueryResult (Option (List PositionD)) :=
  .ok (some (some [{ account := some { id := some "0xabc" }, shares := some 2 }]))

/-- C2: trust-tier classification is a pure function of (assets, position
count), evaluated in the fixed first-match-wins order High, Medium, Low,
Unverified, with the four thresholds of the spec; including the four
concrete examples. -/
theorem c2_trust_tier_first_match :
    (∀ assets positions : Int, assets > 10 ^ 18 → positions > 10 →
        classify_trust_tier assets positions = "High") ∧
    (∀ assets positions : Int, ¬(assets > 10 ^ 18 ∧ positions > 10) →
        (assets > 10 ^ 17 ∨ positions > 5) →
        classify_trust_tier assets positions = "Medium") ∧
    (∀ assets positions : Int, ¬(assets > 10 ^ 18 ∧ positions > 10) →
        ¬(assets > 10 ^ 17 ∨ positions > 5) → assets > 0 →
        classify_trust_tier assets positions = "Low") ∧
    (∀ assets positions : Int, ¬(assets > 10 ^ 18 ∧ positions > 10) →
        ¬(assets > 10 ^ 17 ∨ positions > 5) → ¬(assets > 0) →
        classify_trust_tier assets positions = "Unverified") ∧
    classify_trust_tier (2 * 10 ^ 18) 12 = "High" ∧
    classify_trust_tier (5 * 10 ^ 17) 2 = "Medium" ∧
    classify_trust_tier 1 0 = "Low" ∧
    classify_trust_tier 0 0 = "Unverified" := by
  refine ⟨?_, ?_, ?_, ?_, ?_, ?_, ?_, ?_⟩
  · intro a p h1 h2
    unfold classify_trust_tier
    rw [if_pos ⟨h1, h2⟩]
  · intro a p h1 h2
    unfold classify_trust_tier
    rw [if_neg h1, if_pos h2]
  · intro a p h1 h2 h3
    unfold classify_trust_tier
    rw [if_neg h1, if_neg h2, if_pos h3]
  · intro a p h1 h2 h3
    unfold classify_trust_tier
    rw [if_neg h1, if_neg h2, if_neg h3]
  · unfold classify_trust_tier
    norm_num
  · unfold classify_trust_tier
    norm_num
  · unfold classify_trust_tier
    norm_num
  · unfold classify_trust_tier
    norm_num

/-- Witness for C2: the High tier at assets 2 * 10^18 and 12 positions. -/
theorem c2_witness : classify_trust_tier (2 * 10 ^ 18) 12 = "High" :=
  c2_trust_tier_first_match.1 (2 * 10 ^ 18) 12 (by norm_num) (by norm_num)

/-- C3: every query operation returns, instead of raising, a result object
whose error message carries the category prefix: an HTTP-status failure
gives `HTTP Error <code>: <reason>`, a transport-level failure gives
`URL Error: <reason>`, and any other exception gives
`Request failed: <message>`; and each of the five operations returns
exactly the `execute_query` result for its request (`execute_query` is a
total function, so no failure mode raises). -/
theorem c3_error_message_prefixes :
    (∀ (α : Type) (req : GqlRequest) (code : Int) (reason : String),
        (execute_query (α := α) req (.httpError code reason)).2
          = .error ("HTTP Error " ++ toString code ++ ": " ++ reason)) ∧
    (∀ (α : Type) (req : GqlRequest) (reason : String),
        (execute_query (α := α) req (.urlError reason)).2
          = .error ("URL Error: " ++ reason)) ∧
    (∀ (α : Type) (req : GqlRequest) (msg : String),
        (execute_query (α := α) req (.exn msg)).2
          = .error ("Request failed: " ++ msg)) ∧
    (∀ (α : Type) (req : GqlRequest) (d : Option α),
        (execute_query req (.success d)).2 = .ok d) ∧
    (∀ (t : String) (l : Int) (tn : Bool) (net : Transport),
        (search_atoms t l tn net).2
          = (execute_query (.searchAtoms ("%" ++ t ++ "%") l tn)
              (net.searchResp ("%" ++ t ++ "%") l tn)).2) ∧
    (∀ (id : Int) (tn : Bool) (net : Transport),
        (get_atom_by_id id tn net).2
          = (execute_query (.getAtom id tn) (net.atomResp id tn)).2) ∧
    (∀ (a : String) (tn : Bool) (net : Transport),
        (get_atom_by_address a tn net).2
          = (execute_query (.getAtomByAddress ("%" ++ a ++ "%") tn)
              (net.addressResp ("%" ++ a ++ "%") tn)).2) ∧
    (∀ (id l : Int) (tn : Bool) (net : Transport),
        (get_triples_about id l tn net).2
          = (execute_query (.getTriplesAbout id l tn) (net.triplesResp id l tn)).2) ∧
    (∀ (id l : Int) (tn : Bool) (net : Transport),
        (get_positions_on_atom id l tn net).2
          = (execute_query (.getPositions id l tn) (net.positionsResp id l tn)).2) :=
  ⟨fun _ _ _ _ => rfl, fun _ _ _ => rfl, fun _ _ _ => rfl, fun _ _ _ => rfl,
   fun _ _ _ _ => rfl, fun _ _ _ => rfl, fun _ _ _ => rfl, fun _ _ _ _ => rfl,
   fun _ _ _ _ => rfl⟩

/-- C4 (amended): every non-composite operation issues exactly one request;
the trust-score operation issues exactly three requests, sequentially, in
the order entity detail, then triples, then positions (the latter two with
limit 50). -/
theorem c4_one_request_each_and_three_for_trust :
    (∀ (t : String) (l : Int) (tn : Bool) (net : Transport),
        (search_atoms t l tn net).1 = [.searchAtoms ("%" ++ t ++ "%") l tn]) ∧
    (∀ (id : Int) (tn : Bool) (net : Transport),
        (get_atom_by_id id tn net).1 = [.getAtom id tn]) ∧
    (∀ (a : String) (tn : Bool) (net : Transport),
        (get_atom_by_address a tn net).1 = [.getAtomByAddress ("%" ++ a ++ "%") tn]) ∧
    (∀ (id l : Int) (tn : Bool) (net : Transport),
        (get_triples_about id l tn net).1 = [.getTriplesAbout id l tn]) ∧
    (∀ (id l : Int) (tn : Bool) (net : Transport),
        (get_positions_on_atom id l tn net).1 = [.getPositions id l tn]) ∧
    (∀ (id : Int) (tn : Bool) (net : Transport),
        (calculate_trust_score_net id tn net).1
          = [.getAtom id tn, .getTriplesAbout id 50 tn, .getPositions id 50 tn]) :=
  ⟨fun _ _ _ _ => rfl, fun _ _ _ => rfl, fun _ _ _ => rfl, fun _ _ _ _ => rfl,
   fun _ _ _ _ => rfl, fun _ _ _ => rfl⟩

/-- C4 counterexample: on a concrete run the trust-score operation issues
exactly three requests and the second one is the triples query, not the
positions query, refuting the claimed order (entity detail, positions, then
optionally triples). -/
theorem c4_counterexample :
    (calculate_trust_score_net 7 false emptyTransport).1
      = [.getAtom 7 false, .getTriplesAbout 7 50 false, .getPositions 7 50 false] ∧
    (calculate_trust_score_net 7 false emptyTransport).1.length = 3 ∧
    (calculate_trust_score_net 7 false emptyTransport).1.get? 1
      ≠ some (.getPositions 7 50 false) :=
  ⟨rfl, rfl, by decide⟩

/-- C7: the report starts from all-zero numeric metrics, a null trust ratio
and empty lists before any response data is merged (a run in which all three
sub-queries fail returns exactly that initial report); and the two capped
lists always hold at most five entries, being the image of the first five
entries of the upstream response in upstream order (no client-side
re-sorting). -/
theorem c7_zero_defaults_and_capped_lists :
    (∀ i : Int,
        (initial_report i).metrics.total_stake = 0 ∧
        (initial_report i).metrics.position_count = 0 ∧
        (initial_report i).metrics.claims_as_subject = 0 ∧
        (initial_report i).metrics.claims_as_object = 0 ∧
        (initial_report i).metrics.positive_signal = 0 ∧
        (initial_report i).metrics.negative_signal = 0 ∧
        (initial_report i).metrics.trust_ratio = none ∧
        (initial_report i).top_claims = [] ∧
        (initial_report i).top_attestors = []) ∧
    (∀ (i : Int) (e1 e2 e3 : String),
        calculate_trust_score i (.error e1) (.error e2) (.error e3) = initial_report i) ∧
    (∀ (i : Int) (ad : QueryResult (Option AtomD)) (td : QueryResult (Option (List TripleD)))
        (pd : QueryResult (Option (List PositionD))),
        (calculate_trust_score i ad td pd).top_claims
          = ((extractTriples td).take 5).map mkTopClaim ∧
        (calculate_trust_score i ad td pd).top_attestors
          = ((extractPositions pd).take 5).map mkAttestor ∧
        (calculate_trust_score i ad td pd).top_claims.length ≤ 5 ∧
        (calculate_trust_score i ad td pd).top_attestors.length ≤ 5) := by
  refine ⟨?_, ?_, ?_⟩
  · intro i
    exact ⟨rfl, rfl, rfl, rfl, rfl, rfl, rfl, rfl, rfl⟩
  · intro i e1 e2 e3
    rfl
  · intro i ad td pd
    refine ⟨calc_top_claims i ad td pd, calc_top_attestors i ad td pd, ?_, ?_⟩
    · rw [calc_top_claims]
      simp only [List.length_map, List.length_take]
      omega
    · rw [calc_top_attestors]
      simp only [List.length_map, List.length_take]
      omega

/-- Witness for C1: a concrete run whose one triple is staked 3 for and 1
against computes the rounded ratio, and every computed ratio is in [0, 1]. -/
theorem c1_witness :
    (calculate_trust_score 7 adW tdW pdW).metrics.trust_ratio
      = some (round4 (((calculate_trust_score 7 adW tdW pdW).metrics.positive_signal : ℚ) /
          (((calculate_trust_score 7 adW tdW pdW).metrics.positive_signal : ℚ) +
           ((calculate_trust_score 7 adW tdW pdW).metrics.negative_signal : ℚ)))) ∧
    ∀ q, (calculate_trust_score 7 adW tdW pdW).metrics.trust_ratio = some q →
      0 ≤ q ∧ q ≤ 1 :=
  (c1_trust_ratio_null_or_bounded 7 adW tdW pdW (by
      intro l hl t ht
      unfold tdW at hl
      injection hl with h1
      injection h1 with h2
      injection h2 with h3
      subst h3
      simp only [List.mem_singleton] at ht
      subst ht
      exact ⟨by decide, by decide⟩)).2 (by decide)

/-- C5 (amended): when the entity-detail sub-query returns an error or empty
data and the positions sub-query succeeds, the call still returns a
well-formed report whose entity summary is null, whose four entity-derived
metrics stay at their zero defaults (the signal metrics still reflect the
triples response), and whose top-attestors list is populated from the
positions response. -/
theorem c5_entity_failure_keeps_report (i : Int) (ad : QueryResult (Option AtomD))
    (td : QueryResult (Option (List TripleD))) (pl : List PositionD)
    (hA : ∀ a : AtomD, ad ≠ .ok (some (some a))) :
    (calculate_trust_score i ad td (.ok (some (some pl)))).atom = none ∧
    (calculate_trust_score i ad td (.ok (some (some pl)))).metrics.total_stake = 0 ∧
    (calculate_trust_score i ad td (.ok (some (some pl)))).metrics.position_count = 0 ∧
    (calculate_trust_score i ad td (.ok (some (some pl)))).metrics.claims_as_subject = 0 ∧
    (calculate_trust_score i ad td (.ok (some (some pl)))).metrics.claims_as_object = 0 ∧
    (calculate_trust_score i ad td (.ok (some (some pl)))).top_attestors
      = (pl.take 5).map mkAttestor := by
  simp only [calculate_trust_score, applyTrustRatio_atom, applyTrustRatio_total_stake,
    applyTrustRatio_position_count, applyTrustRatio_claims_as_subject,
    applyTrustRatio_claims_as_object, applyTrustRatio_top_attestors]
  cases ad with
  | error m => exact ⟨rfl, rfl, rfl, rfl, rfl, rfl⟩
  | ok d =>
    cases d with
    | none => exact ⟨rfl, rfl, rfl, rfl, rfl, rfl⟩
    | some d2 =>
      cases d2 with
      | none => exact ⟨rfl, rfl, rfl, rfl, rfl, rfl⟩
      | some a => exact absurd rfl (hA a)

/-- The one-position list used by the C5 witness. -/
def plW : List PositionD := [{ account := some { id := some "0xabc" }, shares := some 2 }]

/-- Witness for C5: entity detail fails with an HTTP 500, one position is
returned, and the report carries it with a null entity summary. -/
theorem c5_witness :
    (calculate_trust_score 7 adW tdW (.ok (some (some plW)))).atom = none ∧
    (calculate_trust_score 7 adW tdW (.ok (some (some plW)))).metrics.total_stake = 0 ∧
    (calculate_trust_score 7 adW tdW (.ok (some (some plW)))).metrics.position_count = 0 ∧
    (calculate_trust_score 7 adW tdW (.ok (some (some plW)))).metrics.claims_as_subject = 0 ∧
    (calculate_trust_score 7 adW tdW (.ok (some (some plW)))).metrics.claims_as_object = 0 ∧
    (calculate_trust_score 7 adW tdW (.ok (some (some plW)))).top_attestors
      = (plW.take 5).map mkAttestor :=
  c5_entity_failure_keeps_report 7 adW tdW plW (by intro a h; simp [adW] at h)

/-- C5 counterexample: entity detail fails and positions succeed, yet the
metrics do not all remain at their zero defaults: the triples response sets
the signal metrics to 3 and 1. -/
theorem c5_counterexample :
    (calculate_trust_score 7 adW tdW pdW).atom = none ∧
    (calculate_trust_score 7 adW tdW pdW).top_attestors ≠ [] ∧
    (calculate_trust_score 7 adW tdW pdW).metrics.positive_signal = 3 ∧
    (calculate_trust_score 7 adW tdW pdW).metrics.negative_signal = 1 ∧
    ¬((calculate_trust_score 7 adW tdW pdW).metrics.positive_signal = 0 ∧
      (calculate_trust_score 7 adW tdW pdW).metrics.negative_signal = 0) :=
  ⟨rfl, by decide, rfl, rfl, by decide⟩

/-- C6 (amended): with `--limit` omitted, the argparse default 10 is what
the search, triples and positions requests carry; with `--limit 3` the
search request carries 3; and the client returns the transport response
unmodified (any bound on the number of returned candidates is enforced by
the server honouring the requested limit, not by client-side truncation). -/
theorem c6_limit_default_and_passthrough :
    (({} : Args).limit = 10) ∧
    (∀ (t : String) (tn : Bool) (net : Transport), t ≠ "" →
        (dispatch { search := some t, testnet := tn } net).1
          = [.searchAtoms ("%" ++ t ++ "%") 10 tn]) ∧
    (∀ (id : Int) (tn : Bool) (net : Transport), id ≠ 0 →
        (dispatch { triples_about := some id, testnet := tn } net).1
          = [.getTriplesAbout id 10 tn]) ∧
    (∀ (id : Int) (tn : Bool) (net : Transport), id ≠ 0 →
        (dispatch { positions := some id, testnet := tn } net).1
          = [.getPositions id 10 tn]) ∧
    (∀ (t : String) (tn : Bool) (net : Transport), t ≠ "" →
        (dispatch { search := some t, limit := 3, testnet := tn } net).1
          = [.searchAtoms ("%" ++ t ++ "%") 3 tn]) ∧
    (∀ (t : String) (l : Int) (tn : Bool) (net : Transport) (body : Option Json),
        net.searchResp ("%" ++ t ++ "%") l tn = .success body →
        (search_atoms t l tn net).2 = .ok body) := by
  refine ⟨rfl, ?_, ?_, ?_, ?_, ?_⟩
  · intro t tn net ht
    simp [dispatch, truthyStr, search_atoms, execute_query, ht]
  · intro id tn net hid
    simp [dispatch, truthyStr, truthyInt, get_triples_about, execute_query, hid]
  · intro id tn net hid
    simp [dispatch, truthyStr, truthyInt, get_positions_on_atom, execute_query, hid]
  · intro t tn net ht
    simp [dispatch, truthyStr, search_atoms, execute_query, ht]
  · intro t l tn net body h
    simp [search_atoms, execute_query, h]

/-- Witness for C6: concrete request traces for the term `uni`, without and
with an explicit limit of 3. -/
theorem c6_witness :
    (dispatch { search := some "uni", testnet := false } emptyTransport).1
      = [.searchAtoms ("%" ++ "uni" ++ "%") 10 false] ∧
    (dispatch { search := some "uni", limit := 3, testnet := false } emptyTransport).1
      = [.searchAtoms ("%" ++ "uni" ++ "%") 3 false] :=
  ⟨c6_limit_default_and_passthrough.2.1 "uni" false emptyTransport (by decide),
   c6_limit_default_and_passthrough.2.2.2.2.1 "uni" false emptyTransport (by decide)⟩

/-- Four candidate entities, more than the requested limit of three. -/
def fourAtoms : List Json :=
  [.obj [("label", .str "a1")], .obj [("label", .str "a2")],
   .obj [("label", .str "a3")], .obj [("label", .str "a4")]]

/-- A transport whose search response delivers four candidates regardless of
the requested limit. -/
def overfullTransport : Transport :=
  { emptyTransport with
    searchResp := fun _ _ _ => .success (some (.obj [("atoms", .arr fourAtoms)])) }

/-- C6 counterexample: with `--limit 3`, a transport delivering four
candidates makes the client return and print all four, refuting any
client-side bound of three. -/
theorem c6_counterexample :
    main { search := some "uni", limit := 3 } overfullTransport
      = .ok { printed := some (.jsonOut (.obj [("data", .obj [("atoms", .arr fourAtoms)])])),
              exitCode := 0, trace := [.searchAtoms "%uni%" 3 false] } ∧
    fourAtoms.length = 4 ∧ ¬(fourAtoms.length ≤ 3) :=
  ⟨rfl, rfl, by decide⟩

/-- C8 (amended): a completed run exits 0 exactly when some operation flag
carried a truthy value and 1 otherwise (so supplying only a falsy value,
such as `--atom-id 0`, also exits 1 after printing usage); a result carrying
an error field renders in text mode as the single line `Error: <message>`
and in JSON mode as the literal error object. -/
theorem c8_exit_codes_and_error_rendering :
    (∀ (args : Args) (net : Transport) (run : MainRun),
        main args net = .ok run →
        run.exitCode = if anyOpTruthy args then 0 else 1) ∧
    (∀ msg : String,
        format_output (.queryError msg) .text = .ok (.textOut ("Error: " ++ msg))) ∧
    (∀ msg : String,
        format_output (.queryError msg) .json
          = .ok (.jsonOut (.obj [("error", .str msg)]))) := by
  refine ⟨?_, fun _ => rfl, fun _ => rfl⟩
  intro args net run h
  unfold main at h
  by_cases hA : anyOpTruthy args = true
  · rw [if_pos hA] at h
    rw [if_pos hA]
    dsimp only at h
    split at h
    · split at h
      · cases h; rfl
      · cases h
    · cases h; rfl
  · rw [if_neg hA] at h
    rw [if_neg hA]
    cases h
    rfl

/-- Witness for C8: a concrete completed run with a truthy search flag has
the exit code the amended claim assigns. -/
theorem c8_witness :
    ({ printed := some (.jsonOut (.obj [("data", .obj [("atoms", .arr fourAtoms)])])),
       exitCode := 0, trace := [.searchAtoms "%uni%" 3 false] } : MainRun).exitCode
      = if anyOpTruthy { search := some "uni", limit := 3 } then 0 else 1 :=
  c8_exit_codes_and_error_rendering.1 { search := some "uni", limit := 3 }
    overfullTransport _ rfl

/-- C8 counterexample: `--atom-id 0` supplies an operation flag, yet the
process exits with status 1, refuting exit 1 only when no operation flag was
supplied. -/
theorem c8_counterexample :
    main { atom_id := some 0 } emptyTransport
      = .ok { printed := none, exitCode := 1, trace := [] } ∧
    ({ atom_id := some 0 } : Args).atom_id.isSome = true ∧
    (1 : Nat) ≠ 0 :=
  ⟨rfl, rfl, by decide⟩

/-- C9: an attestor entry with no truthy display label (null or empty) and a
non-null address renders as the first ten characters of the address followed
by the ellipsis marker, both in the attestor line builder and inside the
full text-mode report. -/
theorem c9_truncated_address_rendering :
    (∀ (a : Attestor) (s : String), (a.label = none ∨ a.label = some "") →
        a.address = some s →
        attestor_line a = .ok ("  - " ++ (s.take 10 ++ "...") ++ ": " ++ stakeStr a.stake)) ∧
    (∀ (s : String) (stk : Option Int),
        format_output (.report { initial_report 0 with
            top_attestors := [{ address := some s, label := none, stake := stk }] }) .text
          = .ok (.textOut (String.intercalate "\n"
              ["Metrics:", "  Total Stake: 0", "  Position Count: 0",
               "  Claims as Subject: 0", "  Claims as Object: 0", "",
               "Top Attestors:", "  - " ++ (s.take 10 ++ "...") ++ ": " ++ stakeStr stk]))) := by
  constructor
  · intro a s hl ha
    obtain ⟨addr, lbl, stk⟩ := a
    dsimp only at hl ha
    subst ha
    rcases hl with h | h <;> subst h <;> rfl
  · intro s stk
    rfl

/-- Witness for C9: a labelless attestor with an 18-character address and a
stake of 500 renders as its first ten characters plus the ellipsis. -/
theorem c9_witness :
    attestor_line { address := some "0x1234567890abcdef", label := none, stake := some 500 }
      = .ok ("  - " ++ ("0x1234567890abcdef".take 10 ++ "...") ++ ": " ++ stakeStr (some 500)) :=
  c9_truncated_address_rendering.1
    { address := some "0x1234567890abcdef", label := none, stake := some 500 }
    "0x1234567890abcdef" (Or.inl rfl) rfl

/-- C10: a well-formed trust-score report built from a positions response
holding a position with a null account carries an attestor whose address and
label are both null, and text-mode formatting of that report raises (the
address key is present with a null value, so the question-mark fallback is
never taken and the ten-character slice is applied to null). -/
theorem c10_text_mode_raises_on_null_address :
    (calculate_trust_score 7 (.error "URL Error: boom") (.error "URL Error: boom")
        (.ok (some (some [{ shares := some 500 }])))).top_attestors
      = [{ address := none, label := none, stake := some 500 }] ∧
    format_output (.report (calculate_trust_score 7 (.error "URL Error: boom")
        (.error "URL Error: boom") (.ok (some (some [{ shares := some 500 }]))))) .text
      = .error () :=
  ⟨rfl, rfl⟩

end IntuitionQuery
